import Mathlib

/-!
Verification of the nand2tetris toolchain sources against their
natural-language specification.

The development shallowly embeds the relevant parts of the Python sources:

* `src/06/HackAssembler.py` — two-pass assembler (`Parser`, `assemble`);
* `src/08/VMTranslator.py`  — the VM-command parser (`Parser`) and the
  assembly emitter (`Translator`), plus a small operational semantics of
  the Hack instructions the emitted `call` sequence uses;
* `src/11/Generator.py` (with `jack_parser/_ast.py`) — the Jack symbol
  table (`SymTable`) and VM code generator (`Generator`).

Pure Python functions become Lean functions; the Python dicts become
association lists with insertion-order append and in-place update, which
matches `dict` observably; `raise` becomes `Except.error`.  Uncaught
Python runtime exceptions (`UnboundLocalError`, `KeyError`, ...) that the
source can actually hit are modelled as explicit `crash` error values so
that the difference between "returns an error object" and "crashes" is
visible in the embedding.
-/

/-! ## Shared helpers -/

/-- Association-list lookup, first binding wins (Python `dict.get`). -/
def alookup {α : Type} : List (String × α) → String → Option α
  | [], _ => none
  | (k', v) :: rest, k => if k' = k then some v else alookup rest k

/-- Python `d[k] = v`: update in place if present, else append (dicts keep
insertion order). -/
def dictInsert {α : Type} : List (String × α) → String → α → List (String × α)
  | [], k, v => [(k, v)]
  | (k', v') :: rest, k, v =>
    if k' = k then (k', v) :: rest else (k', v') :: dictInsert rest k v

/-- Membership of a `\w` word character (regex `\w`, ASCII). -/
def isWordChar (c : Char) : Bool := c.isAlphanum || c = '_'

/-- First character of the label regex `[a-zA-Z.$:]`. -/
def isLabelStart (c : Char) : Bool := c.isAlpha || c = '.' || c = '$' || c = ':'

/-- Later characters of the label regex `[\w.$:]`. -/
def isLabelChar (c : Char) : Bool := isWordChar c || c = '.' || c = '$' || c = ':'

/-- `re.fullmatch(r'[a-zA-Z.$:][\w.$:]*', s)` as a Boolean. -/
def labelMatch : List Char → Bool
  | [] => false
  | c :: rest => isLabelStart c && rest.all isLabelChar

/-- `re.fullmatch(r'\d+', s)` as a Boolean. -/
def constMatch (l : List Char) : Bool := !l.isEmpty && l.all Char.isDigit

/-- Numeric value of a digit string (`int(s)` for a `\d+` string). -/
def digitsVal (l : List Char) : Nat := l.foldl (fun a c => a * 10 + (c.toNat - 48)) 0

/-- Everything before the first `//` (Python `line.split('//')[0]`). -/
def cutComment : List Char → List Char
  | [] => []
  | '/' :: '/' :: _ => []
  | c :: rest => c :: cutComment rest

/-- Python's `str(n)` for a nonnegative number. -/
def natStr (n : Nat) : String := toString n

/-! ## Assembler embedding (`src/06/HackAssembler.py`) -/

/-- The `Const`/`Label` wrappers around an A-instruction symbol. -/
inductive ASymT where
  | constA (s : String)
  | labelA (s : String)
deriving DecidableEq

/-- Parsed assembler instructions (the `Error`, `LInstruction`,
`AInstruction` and `CInstruction` dataclasses). -/
inductive AsmInst where
  | err (msg : String)
  | lInst (label : String)
  | aInst (sym : ASymT)
  | cInst (dest comp jmp : String)
deriving DecidableEq

/-- `Parser.comp`: the fixed comp-code table. -/
def compTable : List (String × String) :=
  [("0", "0101010"), ("1", "0111111"), ("-1", "0111010"),
   ("D", "0001100"),
   ("A", "0110000"), ("M", "1110000"),
   ("!D", "0001101"),
   ("!A", "0110001"), ("!M", "1110001"),
   ("-D", "0001111"),
   ("-A", "0110011"), ("-M", "1110011"),
   ("D+1", "0011111"),
   ("A+1", "0110111"), ("M+1", "1110111"),
   ("D-1", "0001110"),
   ("A-1", "0110010"), ("M-1", "1110010"),
   ("D+A", "0000010"), ("D+M", "1000010"),
   ("D-A", "0010011"), ("D-M", "1010011"),
   ("A-D", "0000111"), ("M-D", "1000111"),
   ("D&A", "0000000"), ("D&M", "1000000"),
   ("D|A", "0010101"), ("D|M", "1010101")]

/-- `Parser.jmp`: jump mnemonics in encoding order. -/
def jmpList : List String := ["", "JGT", "JEQ", "JGE", "JLT", "JNE", "JLE", "JMP"]

/-- `list.index` returning `none` instead of raising `ValueError`. -/
def listIndex : List String → String → Option Nat
  | [], _ => none
  | x :: rest, s => if x = s then some 0 else (listIndex rest s).map (· + 1)

/-- Index of the first occurrence of a character (`str.find`, but as an
`Option` instead of `-1`). -/
def charIndex : List Char → Char → Option Nat
  | [], _ => none
  | c :: rest, t => if c = t then some 0 else (charIndex rest t).map (· + 1)

/-- `Parser.symbol`. -/
def asmSymbol (l : List Char) : Except String ASymT :=
  if constMatch l then
    if digitsVal l > 32767 then .error "constant too large"
    else .ok (.constA (String.mk l))
  else if labelMatch l then .ok (.labelA (String.mk l))
  else .error "invalid symbol"

/-- `Parser.aInstruction` (the argument is the line without its `@`). -/
def asmAInstruction (l : List Char) : AsmInst :=
  match asmSymbol l with
  | .error e => .err e
  | .ok s => .aInst s

/-- `Parser.lInstruction` (the argument is the whole line, starting at `(`). -/
def asmLInstruction (l : List Char) : AsmInst :=
  match charIndex l ')' with
  | none => .err "unexpected end of label"
  | some e =>
    if e = l.length - 1 then
      let inner := (l.drop 1).take (e - 1)
      if labelMatch inner then .lInst (String.mk inner)
      else .err ("invalid label \"" ++ String.mk inner ++ "\"")
    else .err ("expected end of label, found \"" ++ String.mk (l.drop e) ++ "\"")

/-- `len(set(l)) != len(l)`: does the list repeat a character? -/
def hasDup : List Char → Bool
  | [] => false
  | c :: rest => rest.contains c || hasDup rest

/-- 3-bit binary of a jump index (`format(j, '03b')`, `j < 8`). -/
def bin3 (n : Nat) : String :=
  String.mk [if n / 4 % 2 = 1 then '1' else '0',
             if n / 2 % 2 = 1 then '1' else '0',
             if n % 2 = 1 then '1' else '0']

/-- `Parser.cInstruction`. -/
def asmCInstruction (l : List Char) : AsmInst :=
  let p := match charIndex l '=' with
    | some d => (l.take d, l.drop (d + 1))
    | none => ([], l)
  let dest := p.1
  let q := match charIndex p.2 ';' with
    | some d => ((p.2).take d, (p.2).drop (d + 1))
    | none => (p.2, [])
  let compPart := q.1
  let jmpPart := q.2
  if compPart.isEmpty then .err "missing computation"
  else
    match alookup compTable (String.mk compPart) with
    | none => .err ("invalid computation \"" ++ String.mk compPart ++ "\"")
    | some comp =>
      if !dest.isEmpty &&
         (!(dest.all (fun c => c = 'A' || c = 'D' || c = 'M')) || hasDup dest) then
        .err ("invalid destination \"" ++ String.mk dest ++ "\"")
      else
        let destBits := String.mk
          ((['A', 'D', 'M']).map (fun c => if dest.contains c then '1' else '0'))
        match listIndex jmpList (String.mk jmpPart) with
        | none => .err ("invalid jump \"" ++ String.mk jmpPart ++ "\"")
        | some j => .cInst destBits comp (bin3 j)

/-- `Parser.__init__`'s strip: comments gone, then every whitespace
character removed. -/
def asmStrip (line : String) : List Char :=
  (cutComment line.toList).filter (fun c => !c.isWhitespace)

/-- The body of `Parser.parse`: dispatch on the first character. -/
def asmParseAux : Nat → List (List Char) → List AsmInst
  | _, [] => []
  | n, l :: rest =>
    let inst := match l with
      | '(' :: _ => asmLInstruction l
      | '@' :: _ => asmAInstruction (l.drop 1)
      | _ => asmCInstruction l
    (match inst with
     | .err m => .err ("Line " ++ natStr n ++ ": " ++ m)
     | i => i) :: asmParseAux (n + 1) rest

/-- `Parser.parse` over a list of raw source lines. -/
def asmParse (src : List String) : List AsmInst :=
  asmParseAux 1 ((src.map asmStrip).filter (fun l => !l.isEmpty))

/-- The first loop of `assemble`: bind each `(SYM)` to the index of the next
real instruction and collect the real instructions. -/
def asmPass1 : List AsmInst → Nat → List (String × Nat) → (List (String × Nat) × List AsmInst)
  | [], _, syms => (syms, [])
  | .lInst l :: rest, n, syms => asmPass1 rest n (dictInsert syms l n)
  | i :: rest, n, syms =>
    let r := asmPass1 rest (n + 1) syms
    (r.1, i :: r.2)

/-- 16-bit and narrower binary rendering: the `w` low bits of `n`, most
significant first (`format(n, '016b')` for `n < 2^16`). -/
def toBinBits : Nat → Nat → List Char
  | 0, _ => []
  | w + 1, n => (if n / 2 ^ w % 2 = 1 then '1' else '0') :: toBinBits w n

/-- `format(n, '016b')` for values below `2^16`. -/
def toBin16 (n : Nat) : String := String.mk (toBinBits 16 n)

/-- The second loop of `assemble`: resolve symbols (allocating fresh data
addresses from 16 up) and emit code words; an `Error` instruction raises. -/
def asmPass2 : List AsmInst → Nat → List (String × Nat) → Except String (List String × List (String × Nat))
  | [], _, syms => .ok ([], syms)
  | .err m :: _, _, _ => .error m
  | .lInst _ :: rest, nextsym, syms => asmPass2 rest nextsym syms
  | .aInst (.constA s) :: rest, nextsym, syms =>
    (asmPass2 rest nextsym syms).map
      (fun r => (toBin16 (digitsVal s.toList) :: r.1, r.2))
  | .aInst (.labelA s) :: rest, nextsym, syms =>
    (match alookup syms s with
     | some v =>
       (asmPass2 rest nextsym syms).map (fun r => (toBin16 v :: r.1, r.2))
     | none =>
       (asmPass2 rest (nextsym + 1) (dictInsert syms s nextsym)).map
         (fun r => (toBin16 nextsym :: r.1, r.2)))
  | .cInst d c j :: rest, nextsym, syms =>
    (asmPass2 rest nextsym syms).map
      (fun r => (("111" ++ c ++ d ++ j) :: r.1, r.2))

/-- `assemble(Parser(asm), symbols)`, returning the emitted words and the
final symbol table. -/
def assembleAll (src : List String) (syms : List (String × Nat)) :
    Except String (List String × List (String × Nat)) :=
  let p := asmPass1 (asmParse src) 0 syms
  asmPass2 p.2 16 p.1

/-- The symbol table `main` starts from (`SP..THAT` merged with `SYMBOLS`). -/
def initialSymbols : List (String × Nat) :=
  [("SP", 0), ("LCL", 1), ("ARG", 2), ("THIS", 3), ("THAT", 4),
   ("R0", 0), ("R1", 1), ("R2", 2), ("R3", 3),
   ("R4", 4), ("R5", 5), ("R6", 6), ("R7", 7),
   ("R8", 8), ("R9", 9), ("R10", 10), ("R11", 11),
   ("R12", 12), ("R13", 13), ("R14", 14), ("R15", 15),
   ("SCREEN", 16384), ("KBD", 24576)]

/-- Is an instruction a label pseudo-instruction? -/
def isLbl : AsmInst → Bool
  | .lInst _ => true
  | _ => false

/-- The labels defined in an instruction list. -/
def lblNames (l : List AsmInst) : List String :=
  l.filterMap (fun i => match i with | .lInst s => some s | _ => none)

/-- How many real (address-occupying) instructions a list holds. -/
def realCount (l : List AsmInst) : Nat := (l.filter (fun i => !isLbl i)).length

/-- The concrete program of spec scenario 2 (claim C6). -/
def inputC6 : List String := ["@i", "M=1", "(LOOP)", "@i", "D=M", "@LOOP", "D;JGT"]

/-- The concrete program of spec scenario 1 (claim C7). -/
def inputC7 : List String := ["@2", "D=A", "@3", "D=D+A", "@0", "M=D"]

/-! ## VM translator embedding (`src/08/VMTranslator.py`) -/

/-- The `Const`/`Fixed`/`Floating` segment shapes. -/
inductive VSeg where
  | floating (base : String)
  | fixedSeg
  | constSeg
deriving DecidableEq

/-- The parsed VM commands (`Push`, `Pop`, `UnaryOp`, `BinaryOp`, `CompOp`,
`Branch`, `Function`, `Return`).  As in the source, `Push`/`Pop` carry the
already-stringified index and `Function` covers both `function` and `call`
through its `op` field. -/
inductive VCmd where
  | pushC (seg : VSeg) (idx : String)
  | popC (seg : VSeg) (idx : String)
  | unaryC (op : String)
  | binaryC (op : String)
  | compC (op : String)
  | branchC (op : String) (symbol : String)
  | funcC (op : String) (name : String) (nArgs : Nat)
  | retC
deriving DecidableEq

/-- Result of parsing one command: a command, an `Error` value, or an
uncaught Python exception (crash). -/
inductive PRes where
  | cmdR (c : VCmd)
  | errR (msg : String)
  | crashR (kind : String)
deriving DecidableEq

/-- What `Parser.parse` yields per line: a command or an `Error` value. -/
inductive PItem where
  | cmdI (c : VCmd)
  | errI (msg : String)
deriving DecidableEq

/-- `Parser.getInt`: `int(s)`, with `-1` for a `ValueError`. -/
def pyInt (s : List Char) : Int :=
  match s with
  | '-' :: rest =>
    if !rest.isEmpty && rest.all Char.isDigit then -(digitsVal rest : Int) else -1
  | '+' :: rest =>
    if !rest.isEmpty && rest.all Char.isDigit then (digitsVal rest : Int) else -1
  | _ =>
    if !s.isEmpty && s.all Char.isDigit then (digitsVal s : Int) else -1

/-- `Parser.stack`.  The source's `match` on the segment name spells the
wildcard case as the *literal* pattern `case "_":` — so an unknown segment
name matches no case at all, `seg` stays unbound, and the function dies
with an uncaught `UnboundLocalError` (the `"_"` case itself also reads the
unbound `seg` inside its f-string, so it crashes the same way). -/
def vmStack (module : String) (op : String) (args : List String) : PRes :=
  match args with
  | [a0, a1] =>
    let idx := pyInt a1.toList
    if idx < 0 then .errR "index must be a non-negative integer"
    else
      let mk := fun (seg : VSeg) (i : String) =>
        if op = "push" then PRes.cmdR (.pushC seg i) else PRes.cmdR (.popC seg i)
      match a0 with
      | "argument" => mk (.floating "ARG") (toString idx)
      | "local" => mk (.floating "LCL") (toString idx)
      | "static" => mk .fixedSeg (module ++ "." ++ toString idx)
      | "constant" =>
        if op = "pop" then .errR "you cannot pop to a constant"
        else mk .constSeg (toString idx)
      | "this" => mk (.floating "THIS") (toString idx)
      | "that" => mk (.floating "THAT") (toString idx)
      | "pointer" => mk .fixedSeg (toString (idx + 3))
      | "temp" => mk .fixedSeg (toString (idx + 5))
      | _ => .crashR "UnboundLocalError"
  | _ => .errR (op ++ " takes 2 arguments")

/-- `Parser.branch`. -/
def vmBranch (op : String) (args : List String) : PRes :=
  match args with
  | [a] =>
    if labelMatch a.toList then .cmdR (.branchC op a) else .errR "invalid label"
  | _ => .errR (op ++ " takes 1 argument")

/-- `Parser.function` (used for both `function` and `call`). -/
def vmFunction (op : String) (args : List String) : PRes :=
  match args with
  | [a0, a1] =>
    if pyInt a1.toList < 0 then .errR "nArgs must be a non-negative integer"
    else if labelMatch a0.toList then .cmdR (.funcC op a0 (pyInt a1.toList).toNat)
    else .errR "invalid function name"
  | _ => .errR (op ++ " takes two arguments")

/-- The opcode dispatch inside `Parser.parse`. -/
def vmDispatch (module : String) (op : String) (args : List String) : PRes :=
  match op with
  | "push" => vmStack module op args
  | "pop" => vmStack module op args
  | "neg" | "not" =>
    if args.isEmpty then .cmdR (.unaryC op) else .errR (op ++ " takes no arguments")
  | "add" | "sub" | "and" | "or" =>
    if args.isEmpty then .cmdR (.binaryC op) else .errR (op ++ " takes no arguments")
  | "eq" | "lt" | "gt" =>
    if args.isEmpty then .cmdR (.compC op) else .errR (op ++ " takes no arguments")
  | "label" | "goto" | "if-goto" => vmBranch op args
  | "function" | "call" => vmFunction op args
  | "return" =>
    if args.isEmpty then .cmdR .retC else .errR "return takes no arguments"
  | _ => .errR "unknown instruction"

/-- Accumulator pass of `str.split()`: `acc` holds the current word,
reversed. -/
def vmWordsAux : List Char → List Char → List String
  | [], acc => if acc.isEmpty then [] else [String.mk acc.reverse]
  | c :: rest, acc =>
    if c.isWhitespace then
      if acc.isEmpty then vmWordsAux rest []
      else String.mk acc.reverse :: vmWordsAux rest []
    else vmWordsAux rest (c :: acc)

/-- `str.split()` on whitespace, dropping empty tokens. -/
def vmWords (l : List Char) : List String := vmWordsAux l []

/-- `Parser.parse`: one item per non-empty line; `Error` results are
yielded as values, a crash aborts the whole parse. -/
def vmParseAux (filename module : String) : Nat → List String → Except String (List PItem)
  | _, [] => .ok []
  | n, line :: rest =>
    match vmWords (cutComment line.toList) with
    | [] => vmParseAux filename module (n + 1) rest
    | op :: args =>
      match vmDispatch module op args with
      | .crashR k => .error k
      | .errR m =>
        (vmParseAux filename module (n + 1) rest).map
          (fun l => .errI (filename ++ " line " ++ natStr (n + 1) ++ ": " ++ m) :: l)
      | .cmdR c =>
        (vmParseAux filename module (n + 1) rest).map (fun l => .cmdI c :: l)

/-- `Parser(module, lines).parse()`. -/
def vmParse (module : String) (lines : List String) : Except String (List PItem) :=
  vmParseAux (module ++ ".vm") module 0 lines

/-- The three translator counters plus the module name
(`Translator.__init__`): comparison labels, return labels, and the name of
the function currently being translated (initially the sentinel `None`). -/
structure TState where
  module : String
  next_cmp : Nat
  next_ret : Nat
  funcname : Option String
deriving DecidableEq

/-- How a Python f-string renders `self.funcname`: `None` for the sentinel. -/
def pyNone : Option String → String
  | none => "None"
  | some s => s

/-- `Translator.makeLabel`. -/
def makeLabel (st : TState) (symbol : String) : String :=
  pyNone st.funcname ++ "$" ++ symbol

/-- `Translator.ops`. -/
def opsMap : List (String × String) :=
  [("add", "+"), ("sub", "-"), ("and", "&"), ("or", "|"),
   ("neg", "-"), ("not", "!"),
   ("eq", "JEQ"), ("lt", "JLT"), ("gt", "JGT")]

/-- `Translator.push`. -/
def pushText (seg : VSeg) (idx : String) : String :=
  (match seg with
   | .floating base =>
     "@" ++ base ++ " \n" ++ "D=M     \n" ++ "@" ++ idx ++ "  \n" ++
     "A=D+A   \n" ++ "D=M     \n"
   | .fixedSeg => "@" ++ idx ++ "  \n" ++ "D=M     \n"
   | .constSeg => "@" ++ idx ++ "  \n" ++ "D=A     \n") ++
  ("@SP   \n" ++ "M=M+1 \n" ++ "A=M-1 \n" ++ "M=D   \n")

/-- `Translator.pop` (the `Const` shape has no case in the source's match
and the method falls through returning `None`; the parser never produces
it, modelled as the empty string). -/
def popText (seg : VSeg) (idx : String) : String :=
  match seg with
  | .floating base =>
    "@" ++ base ++ " \n" ++ "D=M     \n" ++ "@" ++ idx ++ "  \n" ++
    "D=D+A   \n" ++ "@SP     \n" ++ "AM=M-1   \n" ++ "D=D+M   \n" ++
    "A=D-M   \n" ++ "M=D-A   \n"
  | .fixedSeg =>
    "@SP     \n" ++ "AM=M-1  \n" ++ "D=M     \n" ++ "@" ++ idx ++ "  \n" ++
    "M=D     \n"
  | .constSeg => ""

/-- `Translator.unaryOp`. -/
def unaryText (op : String) : String :=
  let o := (alookup opsMap op).getD ""
  "@SP     \n" ++ "A=M-1   \n" ++ "M=" ++ o ++ "M \n"

/-- `Translator.binaryOp`. -/
def binaryText (op : String) : String :=
  let o := (alookup opsMap op).getD ""
  let action := if o = "-" then "M=M-D     \n" else "M=D" ++ o ++ "M \n"
  ("@SP     \n" ++ "AM=M-1  \n" ++ "D=M     \n" ++ "A=A-1   \n") ++ action

/-- `Translator.compOp` (the counter has already been incremented when the
label is formatted, hence `next_cmp + 1`). -/
def compText (st : TState) (op : String) : String :=
  let label := st.module ++ "$" ++ op ++ "." ++ natStr (st.next_cmp + 1)
  let o := (alookup opsMap op).getD ""
  "@SP       \n" ++ "AM=M-1    \n" ++ "D=M       \n" ++ "A=A-1     \n" ++
  "D=M-D     \n" ++ "M=-1      \n" ++ "@" ++ label ++ "  \n" ++
  "D;" ++ o ++ "    \n" ++ "@SP       \n" ++ "A=M-1     \n" ++
  "M=0       \n" ++ "(" ++ label ++ ") \n"

/-- `Translator.label`. -/
def labelText (lbl : String) : String := "(" ++ lbl ++ ") \n"

/-- `Translator.goto`. -/
def gotoText (lbl : String) : String := "@" ++ lbl ++ " \n" ++ "0;JMP    \n"

/-- `Translator.ifGoto`. -/
def ifGotoText (lbl : String) : String :=
  "@SP      \n" ++ "AM=M-1   \n" ++ "D=M      \n" ++ "@" ++ lbl ++ " \n" ++
  "D;JNE    \n"

/-- `'s' * n` for the local-initialisation block of `function`. -/
def strRepeat (s : String) : Nat → String
  | 0 => ""
  | n + 1 => s ++ strRepeat s n

/-- `Translator.function`'s emitted text. -/
def functionText (name : String) (nArgs : Nat) : String :=
  "(" ++ name ++ ") \n" ++
  strRepeat ("@SP   \n" ++ "M=M+1 \n" ++ "A=M-1 \n" ++ "M=0   \n") nArgs

/-- `Translator.call`'s emitted text, given the already-made return label. -/
def callFullText (name : String) (nArgs : Nat) (ret : String) : String :=
  "@" ++ ret ++ "     \n" ++
  "D=A        \n" ++ "@SP        \n" ++ "M=M+1      \n" ++ "A=M-1      \n" ++
  "M=D        \n" ++
  "@LCL       \n" ++ "D=M        \n" ++ "@SP        \n" ++ "M=M+1      \n" ++
  "A=M-1      \n" ++ "M=D        \n" ++
  "@ARG       \n" ++ "D=M        \n" ++ "@SP        \n" ++ "M=M+1      \n" ++
  "A=M-1      \n" ++ "M=D        \n" ++
  "@THIS      \n" ++ "D=M        \n" ++ "@SP        \n" ++ "M=M+1      \n" ++
  "A=M-1      \n" ++ "M=D        \n" ++
  "@THAT      \n" ++ "D=M        \n" ++ "@SP        \n" ++ "M=M+1      \n" ++
  "A=M-1      \n" ++ "M=D        \n" ++
  "D=A        \n" ++ "@" ++ natStr (4 + nArgs) ++ " \n" ++ "D=D-A      \n" ++
  "@ARG       \n" ++ "M=D        \n" ++ "@SP        \n" ++ "D=M        \n" ++
  "@LCL       \n" ++ "M=D        \n" ++
  "@" ++ name ++ "    \n" ++ "0;JMP      \n" ++ "(" ++ ret ++ ")    \n"

/-- `Translator.ret`. -/
def retText : String :=
  "@LCL   \n" ++ "D=M    \n" ++ "@R13   \n" ++ "M=D    \n" ++ "@5     \n" ++
  "A=D-A  \n" ++ "D=M    \n" ++ "@R14   \n" ++ "M=D    \n" ++ "@SP    \n" ++
  "A=M-1  \n" ++ "D=M    \n" ++ "@ARG   \n" ++ "A=M    \n" ++ "M=D    \n" ++
  "D=A    \n" ++ "@SP    \n" ++ "M=D+1  \n" ++ "@R13   \n" ++ "AM=M-1 \n" ++
  "D=M    \n" ++ "@THAT  \n" ++ "M=D    \n" ++ "@R13   \n" ++ "AM=M-1 \n" ++
  "D=M    \n" ++ "@THIS  \n" ++ "M=D    \n" ++ "@R13   \n" ++ "AM=M-1 \n" ++
  "D=M    \n" ++ "@ARG   \n" ++ "M=D    \n" ++ "@R13   \n" ++ "AM=M-1 \n" ++
  "D=M    \n" ++ "@LCL   \n" ++ "M=D    \n" ++ "@R14   \n" ++ "A=M    \n" ++
  "0;JMP  \n"

/-- One iteration of `Translator.translate`: the asm chunks yielded for a
command (a `Branch`/`Function` with an opcode outside the matched literals
yields nothing, like the source's fall-through `match`) and the new state. -/
def transStep (st : TState) (c : VCmd) : List String × TState :=
  match c with
  | .pushC seg idx => ([pushText seg idx], st)
  | .popC seg idx => ([popText seg idx], st)
  | .unaryC op => ([unaryText op], st)
  | .binaryC op => ([binaryText op], st)
  | .compC op => ([compText st op], { st with next_cmp := st.next_cmp + 1 })
  | .branchC op s =>
    if op = "label" then ([labelText (makeLabel st s)], st)
    else if op = "goto" then ([gotoText (makeLabel st s)], st)
    else if op = "if-goto" then ([ifGotoText (makeLabel st s)], st)
    else ([], st)
  | .funcC op name n =>
    if op = "function" then
      ([functionText name n], { st with funcname := some name, next_ret := 0 })
    else if op = "call" then
      ([callFullText name n (makeLabel st ("ret." ++ natStr (st.next_ret + 1)))],
       { st with next_ret := st.next_ret + 1 })
    else ([], st)
  | .retC => ([retText], st)

/-- `Translator.translate` over a command list. -/
def vmTransList (st : TState) : List VCmd → List String × TState
  | [] => ([], st)
  | c :: rest =>
    let r := transStep st c
    let r2 := vmTransList r.2 rest
    (r.1 ++ r2.1, r2.2)

/-- `Translator.__init__`'s counter state. -/
def vmInitState (module : String) : TState := ⟨module, 0, 0, none⟩

/-- Does the command set `self.funcname` (i.e. is it a `function f k`)? -/
def isFunDef : VCmd → Bool
  | .funcC op _ _ => op = "function"
  | _ => false

/-! ## Hack machine semantics for the emitted `call` sequence

The assembler resolves `@SP @LCL @ARG @THIS @THAT` to addresses 0..4.  The
A register, D register and RAM are natural numbers; the ALU operations
wrap at `2^16`; `0;JMP`'s control transfer is outside this straight-line
fragment and leaves the data state unchanged. -/

/-- The 16-bit word size. -/
def wsize : Nat := 65536

/-- Wrapping addition. -/
def addw (x y : Nat) : Nat := (x + y) % wsize

/-- Wrapping (two's complement) subtraction. -/
def subw (x y : Nat) : Nat := (x + (wsize - y % wsize)) % wsize

/-- Machine state: A, D, RAM. -/
structure HS where
  a : Nat
  d : Nat
  ram : Nat → Nat

/-- Pointwise RAM update. -/
def upd (ram : Nat → Nat) (addr v : Nat) : Nat → Nat :=
  fun i => if i = addr then v else ram i

/-- The comp fields used by the `call` sequence. -/
inductive HComp where
  | cA | cD | cM | cMplus1 | cMminus1 | cDminusA | cZero
deriving DecidableEq

/-- Single destinations (the `call` sequence uses no multi-dest writes). -/
inductive HDest where
  | dA | dD | dM
deriving DecidableEq

/-- The Hack instructions appearing in the `call` sequence. -/
inductive HInst where
  | ai (n : Nat)
  | ci (dest : HDest) (comp : HComp)
  | jmp (comp : HComp)
deriving DecidableEq

/-- ALU evaluation. -/
def evalComp (s : HS) : HComp → Nat
  | .cA => s.a
  | .cD => s.d
  | .cM => s.ram s.a
  | .cMplus1 => addw (s.ram s.a) 1
  | .cMminus1 => subw (s.ram s.a) 1
  | .cDminusA => subw s.d s.a
  | .cZero => 0

/-- One instruction's effect on the data state. -/
def step (s : HS) : HInst → HS
  | .ai n => ⟨n, s.d, s.ram⟩
  | .ci .dA c => ⟨evalComp s c, s.d, s.ram⟩
  | .ci .dD c => ⟨s.a, evalComp s c, s.ram⟩
  | .ci .dM c => ⟨s.a, s.d, upd s.ram s.a (evalComp s c)⟩
  | .jmp _ => s

/-- Straight-line execution. -/
def run (s : HS) (l : List HInst) : HS := l.foldl step s

/-- The `@SP / M=M+1 / A=M-1 / M=D` push-D block the `call` text repeats. -/
def pushDAsm : List HInst :=
  [.ai 0, .ci .dM .cMplus1, .ci .dA .cMminus1, .ci .dM .cD]

/-- The instruction sequence of `Translator.call` (`callFullText`), with
`@{ret}`/`@{name}` resolved to code addresses `ret`/`target` and the
segment-pointer symbols resolved as the assembler binds them. -/
def callAsmInsts (ret n target : Nat) : List HInst :=
  [.ai ret, .ci .dD .cA] ++ pushDAsm ++
  [.ai 1, .ci .dD .cM] ++ pushDAsm ++
  [.ai 2, .ci .dD .cM] ++ pushDAsm ++
  [.ai 3, .ci .dD .cM] ++ pushDAsm ++
  [.ai 4, .ci .dD .cM] ++ pushDAsm ++
  [.ci .dD .cA, .ai (4 + n), .ci .dD .cDminusA,
   .ai 2, .ci .dM .cD, .ai 0, .ci .dD .cM, .ai 1, .ci .dM .cD,
   .ai target, .jmp .cZero]

/-- A concrete machine state for the C5 counterexample: `SP = 256`,
everything else zero. -/
def hsC5 : HS := ⟨0, 0, fun i => if i = 0 then 256 else 0⟩

/-! ## Jack compiler embedding (`src/11/Generator.py`, `jack_parser/_ast.py`) -/

/-- `Name(value, line)`. -/
structure NameT where
  value : String
  line : Nat
deriving DecidableEq

/-- `Decl.ty`: either a keyword token (carrying its `.value` string, e.g.
`"int"`, `"void"`) or a bound class-name token. -/
inductive TyT where
  | builtinT (tag : String)
  | classT (n : NameT)
deriving DecidableEq

/-- `Decl`. -/
structure DeclT where
  ty : TyT
  names : List NameT
deriving DecidableEq

/-- `ClassVar.scope` (`Tok.STATIC` / `Tok.FIELD`). -/
inductive CScope where
  | staticS
  | fieldS
deriving DecidableEq

/-- `ClassVar`. -/
structure ClassVarT where
  scope : CScope
  decl : DeclT
deriving DecidableEq

/-- `Subroutine.mtype` (`Tok.CTOR` / `Tok.FN` / `Tok.METHOD`). -/
inductive MType where
  | ctorM
  | funcM
  | methodM
deriving DecidableEq

/-- The nine binary-operator tokens of `Parser.BIN_OPS`. -/
inductive BinOp where
  | plusO | minusO | mulO | divO | andO | orO | ltO | gtO | eqO
deriving DecidableEq

/-- Expression-level AST.  One inductive covers `Expr`, `Term` and the
possible `Term.expr` payloads (`Const`, `Var`, `Subscript`, `Call`,
grouped `Expr`); the generator dispatches on the constructor exactly as
`generate_texpr`'s `singledispatch` does on the Python class. -/
inductive JNode where
  | eNode (terms : List JNode) (ops : List BinOp)
  | tNode (unary : Option String) (grouped : Bool) (inner : JNode)
  | constN (ty : String) (val : String)
  | varN (n : NameT)
  | subN (n : NameT) (idx : JNode)
  | callN (names : List NameT) (params : List JNode)

/-- Statements (`LetStmt` with a `Var` or `Subscript` lvalue, `DoStmt`,
`IfStmt`, `WhileStmt`, `RetStmt`). -/
inductive JStmt where
  | letV (n : NameT) (rhs : JNode) (lno : Nat)
  | letSub (n : NameT) (idx : JNode) (rhs : JNode) (lno : Nat)
  | doS (call : JNode) (lno : Nat)
  | ifS (cond : JNode) (thenS : List JStmt) (elseS : Option (List JStmt)) (lno : Nat)
  | whileS (cond : JNode) (body : List JStmt) (lno : Nat)
  | retS (e : Option JNode) (lno : Nat)

/-- `Subroutine`. -/
structure SubT where
  mtype : MType
  decl : DeclT
  args : List DeclT
  locs : List DeclT
  stmts : List JStmt

/-- `Class`. -/
structure ClassT where
  module : String
  name : NameT
  cvars : List ClassVarT
  subs : List SubT

/-- `SubSym`: class-scope and instance-scope subroutine arities. -/
structure SubSymT where
  cm_names : List (String × Nat)
  im_names : List (String × Nat)
deriving DecidableEq

/-- `SubSym.conforms`: `self.items() >= other.items()` on both maps. -/
def SubSymT.conforms (self other : SubSymT) : Bool :=
  other.cm_names.all (fun p => alookup self.cm_names p.1 == some p.2) &&
  other.im_names.all (fun p => alookup self.im_names p.1 == some p.2)

/-- `VarSym`. -/
structure VarSymT where
  ty : String
  code : String
deriving DecidableEq

/-- A Python dict key: either a `str` or a `Name` namedtuple.  `SymTable.OS`
is keyed by `str`; `add_subs` looks it up with the `Name` tuple itself,
and tuple keys never compare equal to string keys. -/
inductive PyKey where
  | strK (s : String)
  | nameK (value : String) (line : Nat)
deriving DecidableEq

/-- Dict lookup over `PyKey`-keyed association lists. -/
def dget {α : Type} : List (PyKey × α) → PyKey → Option α
  | [], _ => none
  | (k', v) :: rest, k => if k' = k then some v else dget rest k

/-- `SymTable.OS`: the fixed OS signature table. -/
def osTable : List (PyKey × SubSymT) :=
  [(.strK "Math",
    ⟨[("multiply", 2), ("divide", 2), ("min", 2), ("max", 2), ("sqrt", 2),
      ("abs", 1)], []⟩),
   (.strK "String",
    ⟨[("new", 1), ("backSpace", 0), ("doubleQuote", 0), ("newLine", 0)],
     [("dispose", 0), ("length", 0), ("charAt", 1), ("setCharAt", 2),
      ("appendChar", 1), ("eraseLastChar", 0), ("intValue", 0), ("setInt", 1)]⟩),
   (.strK "Array", ⟨[("new", 1)], [("dispose", 0)]⟩),
   (.strK "Output",
    ⟨[("moveCursor", 2), ("printChar", 1), ("printString", 1), ("printInt", 1),
      ("println", 0), ("backSpace", 0)], []⟩),
   (.strK "Screen",
    ⟨[("clearScreen", 0), ("setColor", 1), ("drawPixel", 2), ("drawLine", 4),
      ("drawRectangle", 4), ("drawCircle", 3)], []⟩),
   (.strK "Keyboard",
    ⟨[("keyPressed", 0), ("readChar", 0), ("readLine", 1), ("readInt", 1)], []⟩),
   (.strK "Memory",
    ⟨[("peek", 1), ("poke", 2), ("alloc", 1), ("deAlloc", 1)], []⟩),
   (.strK "Sys", ⟨[("halt", 0), ("error", 1), ("wait", 1)], []⟩)]

/-- Generator failures: a raised `ParseError`, an uncaught Python runtime
exception, or exhausted recursion fuel. -/
inductive GenErr where
  | parseE (msg : String)
  | crashE (kind : String)
  | fuelE
deriving DecidableEq

/-- `redef_error`. -/
def redefMsg (n : NameT) : GenErr :=
  .parseE ("line " ++ natStr n.line ++ ": " ++ n.value ++ " redefined")

/-- `undef_error`. -/
def undefMsg (n : NameT) : GenErr :=
  .parseE ("line " ++ natStr n.line ++ ": " ++ n.value ++ " undefined")

/-- `array_error`. -/
def arrayMsg (n : NameT) : GenErr :=
  .parseE ("line " ++ natStr n.line ++ ": cannot subscript builtin " ++ n.value)

/-- `parse_error`. -/
def parseMsg (n : NameT) (m : String) : GenErr :=
  .parseE ("line " ++ natStr n.line ++ ": " ++ n.value ++ " " ++ m)

/-- The `SymTable` state.  Fields that `__init__` sets to `None` are
`Option`s; the two `VarCode` counters that survive as plain numbers are
`static_count` (program-wide) and `field_count` (reset per class). -/
structure SymT where
  subs : List (String × SubSymT)
  class_name : Option String
  cvars : Option (List (String × VarSymT))
  static_count : Nat
  field_count : Option Nat
  func_decl : Option DeclT
  fvars : Option (List (String × VarSymT))
  label_id : Option Nat
deriving DecidableEq

/-- `SymTable.__init__`. -/
def symInit : SymT := ⟨[], none, none, 0, none, none, none, none⟩

/-- `SymTable.var_code`. -/
def varCode (sy : SymT) (n : NameT) : Except GenErr VarSymT :=
  match sy.fvars with
  | none => .error (.crashE "AttributeError")
  | some fv =>
    match alookup fv n.value with
    | some s => .ok s
    | none =>
      match sy.cvars with
      | none => .error (.crashE "AttributeError")
      | some cv =>
        match alookup cv n.value with
        | some s => .ok s
        | none => .error (undefMsg n)

/-- `SymTable.arr_code`. -/
def arrCode (sy : SymT) (n : NameT) : Except GenErr VarSymT := do
  let s ← varCode sy n
  if s.ty = "<builtin>" then .error (arrayMsg n) else .ok s

/-- `SymTable.label`: without a suffix the plain `<Class>.<Sub>` scope;
with one, the counter is bumped first and interpolated after the suffix. -/
def symLabel (sy : SymT) (suffix : Option String) : Except GenErr (String × SymT) :=
  match sy.func_decl with
  | none => .error (.crashE "AttributeError")
  | some d =>
    match d.names with
    | [] => .error (.crashE "IndexError")
    | n0 :: _ =>
      let lbl := pyNone sy.class_name ++ "." ++ n0.value
      match suffix with
      | some suf =>
        match sy.label_id with
        | none => .error (.crashE "TypeError")
        | some i =>
          .ok (lbl ++ "." ++ suf ++ "_" ++ natStr (i + 1),
               { sy with label_id := some (i + 1) })
      | none => .ok (lbl, sy)

/-- The per-subroutine loop inside `add_subs`, building the two signature
maps (a duplicate method name is—as in the source—reported with the
*class* name). -/
def buildSubSyms (cname : NameT) :
    List SubT → List (String × Nat) → List (String × Nat) → Except GenErr SubSymT
  | [], cm, im => .ok ⟨cm, im⟩
  | sub :: rest, cm, im =>
    match sub.decl.names with
    | [] => .error (.crashE "IndexError")
    | sname :: _ =>
      if sub.mtype = .methodM then
        if (alookup im sname.value).isSome then .error (redefMsg cname)
        else buildSubSyms cname rest cm (im ++ [(sname.value, sub.args.length)])
      else
        if (alookup cm sname.value).isSome then .error (redefMsg sname)
        else buildSubSyms cname rest (cm ++ [(sname.value, sub.args.length)]) im

/-- `SymTable.add_subs`.  The OS-conformance lookup is
`self.OS.get(name, None)` where `name` is the `Name` *tuple* (not
`name.value`), so it consults the string-keyed OS table with a tuple key. -/
def addSubs (sy : SymT) (c : ClassT) : Except GenErr SymT :=
  if (alookup sy.subs c.name.value).isSome then .error (redefMsg c.name)
  else do
    let subsym ← buildSubSyms c.name c.subs [] []
    match dget osTable (.nameK c.name.value c.name.line) with
    | some builtin =>
      if subsym.conforms builtin then
        .ok { sy with subs := sy.subs ++ [(c.name.value, subsym)] }
      else .error (parseMsg c.name "does not implement builtin")
    | none => .ok { sy with subs := sy.subs ++ [(c.name.value, subsym)] }

/-- `SymTable.get_type`. -/
def getType (sy : SymT) (decl : DeclT) : Except GenErr String :=
  match decl.ty with
  | .builtinT _ => .ok "<builtin>"
  | .classT n =>
    if (dget osTable (.strK n.value)).isSome || (alookup sy.subs n.value).isSome
    then .ok n.value
    else .error (undefMsg n)

/-- The inner name loop of `add_class` for one `ClassVar` declaration. -/
def addCVNames (ty : String) (scope : CScope) :
    List NameT → List (String × VarSymT) → Nat → Nat →
    Except GenErr (List (String × VarSymT) × Nat × Nat)
  | [], acc, sc, fc => .ok (acc, sc, fc)
  | n :: rest, acc, sc, fc =>
    if (alookup acc n.value).isSome then .error (redefMsg n)
    else
      match scope with
      | .staticS =>
        addCVNames ty scope rest
          (acc ++ [(n.value, ⟨ty, "static " ++ natStr sc⟩)]) (sc + 1) fc
      | .fieldS =>
        addCVNames ty scope rest
          (acc ++ [(n.value, ⟨ty, "this " ++ natStr fc⟩)]) sc (fc + 1)

/-- The class-variable loop of `add_class`. -/
def addClassVars (sy : SymT) :
    List ClassVarT → List (String × VarSymT) → Nat → Nat →
    Except GenErr (List (String × VarSymT) × Nat × Nat)
  | [], acc, sc, fc => .ok (acc, sc, fc)
  | cv :: rest, acc, sc, fc => do
    let ty ← getType sy cv.decl
    let r ← addCVNames ty cv.scope cv.decl.names acc sc fc
    addClassVars sy rest r.1 r.2.1 r.2.2

/-- `SymTable.add_class`. -/
def addClass (sy : SymT) (c : ClassT) : Except GenErr SymT := do
  let r ← addClassVars sy c.cvars [] sy.static_count 0
  .ok { sy with class_name := some c.name.value, cvars := some r.1,
                static_count := r.2.1, field_count := some r.2.2 }

/-- The argument loop of `add_sub` (each argument `Decl` carries one name). -/
def addArgsF (sy : SymT) :
    List DeclT → List (String × VarSymT) → Nat →
    Except GenErr (List (String × VarSymT) × Nat)
  | [], fv, ac => .ok (fv, ac)
  | arg :: rest, fv, ac => do
    let ty ← getType sy arg
    match arg.names with
    | [] => .error (.crashE "IndexError")
    | n0 :: _ =>
      if (alookup fv n0.value).isSome then .error (redefMsg n0)
      else addArgsF sy rest (fv ++ [(n0.value, ⟨ty, "argument " ++ natStr ac⟩)]) (ac + 1)

/-- The inner name loop for one local `Decl` of `add_sub`. -/
def addLocNames (ty : String) :
    List NameT → List (String × VarSymT) → Nat →
    Except GenErr (List (String × VarSymT) × Nat)
  | [], fv, lc => .ok (fv, lc)
  | n :: rest, fv, lc =>
    if (alookup fv n.value).isSome then .error (redefMsg n)
    else addLocNames ty rest (fv ++ [(n.value, ⟨ty, "local " ++ natStr lc⟩)]) (lc + 1)

/-- The locals loop of `add_sub`. -/
def addLocsF (sy : SymT) :
    List DeclT → List (String × VarSymT) → Nat →
    Except GenErr (List (String × VarSymT) × Nat)
  | [], fv, lc => .ok (fv, lc)
  | loc :: rest, fv, lc => do
    let ty ← getType sy loc
    let r ← addLocNames ty loc.names fv lc
    addLocsF sy rest r.1 r.2

/-- `SymTable.add_sub` (for a `method`, `argument 0` is consumed first). -/
def addSub (sy : SymT) (s : SubT) : Except GenErr SymT := do
  let ac0 := if s.mtype = .methodM then 1 else 0
  let r ← addArgsF sy s.args [] ac0
  let r2 ← addLocsF sy s.locs r.1 0
  .ok { sy with func_decl := some s.decl, label_id := some 0, fvars := some r2.1 }

/-- The shared instance-call tail of `check_call` (`self.subs[ty]` and
`scope.im_names[fname.value]` are plain subscripts: a missing key raises
`KeyError`, which the `except ValueError` clauses do not catch). -/
def instCallTail (sy : SymT) (ty : String) (pcode : String) (fname : NameT)
    (params : List JNode) : Except GenErr (String × String) :=
  match alookup sy.subs ty with
  | none => .error (.crashE "KeyError")
  | some sc =>
    match alookup sc.im_names fname.value with
    | none => .error (.crashE "KeyError")
    | some nargs =>
      if nargs ≠ params.length then
        .error (parseMsg fname "takes \x7blen(call.params)\x7d args")
      else .ok (pcode, ty ++ "." ++ fname.value)

/-- `SymTable.check_call`.  (The wrong-arity message is spelled with
literal braces in the source — the `"takes {len(call.params)} args"`
string is not an f-string.) -/
def checkCall (sy : SymT) (names : List NameT) (params : List JNode) :
    Except GenErr (String × String) :=
  match names with
  | [] => .error (.crashE "IndexError")
  | [name0, name1] =>
    let scope :=
      match alookup sy.subs name0.value with
      | some s => some s
      | none =>
        match dget osTable (.strK name0.value) with
        | some ⟨cm, im⟩ => some (⟨cm, im⟩ : SubSymT)
        | none => none
    match scope with
    | some sc =>
      match alookup sc.cm_names name1.value with
      | none => .error (.crashE "KeyError")
      | some nargs =>
        if nargs ≠ params.length then
          .error (parseMsg name1 "takes \x7blen(call.params)\x7d args")
        else .ok ("", name0.value ++ "." ++ name1.value)
    | none =>
      match varCode sy name0 with
      | .error _ => .error (parseMsg name0 "is not a variable")
      | .ok var => instCallTail sy var.ty var.code name1 params
  | name0 :: _ =>
    match sy.class_name with
    | none => .error (.crashE "KeyError")
    | some cn => instCallTail sy cn "argument 0" name0 params

/-- `generate_texpr` on a `Const` node.  Note the source writes
`push const` (not `push constant`), emits no negation for `true`, and
silently emits nothing for an unrecognized keyword value. -/
def genConst (ty val : String) : List String :=
  if ty = "int" then ["push const " ++ val]
  else if ty = "str" then
    ["push const " ++ natStr val.length, "call String.new 1"] ++
    (val.toList.map
      (fun c => ["push const " ++ natStr c.toNat, "call String.appendChar 1"])).flatten
  else
    match val with
    | "true" => ["push const 1"]
    | "false" => ["push const 0"]
    | "null" => ["push const 0"]
    | "this" => ["push pointer 0"]
    | _ => []

/-- `generate_texpr` on a `Call` node: resolve via `check_call`, push the
receiver code if any (bumping the arg count for the implicit `this`), then
emit the `call`.  The `params` expressions are *never* generated. -/
def genCallE (sy : SymT) (names : List NameT) (params : List JNode) :
    Except GenErr (List String) := do
  let r ← checkCall sy names params
  let pcode := r.1
  let fname := r.2
  let nargs := params.length
  if pcode ≠ "" then
    let nargs2 := if pcode = "argument 0" then nargs + 1 else nargs
    .ok (["push " ++ pcode, "call " ++ fname ++ " " ++ natStr nargs2])
  else .ok (["call " ++ fname ++ " " ++ natStr nargs])

/-- The VM command a binary-operator token lowers to (`generate_expr`'s
`if`/`elif` chain). -/
def binOpCmd : BinOp → String
  | .plusO => "add"
  | .minusO => "sub"
  | .andO => "and"
  | .orO => "or"
  | .eqO => "eq"
  | .ltO => "lt"
  | .gtO => "gt"
  | .divO => "call Math.divide 2"
  | .mulO => "call Math.multiply 2"

/-- Which of `generate_expr` / `generate_term` / `generate_texpr` is being
run (the three mutually recursive emitters). -/
inductive GKind where
  | exprK
  | termK
  | texprK

/-- The expression emitters, fuelled to make the mutual recursion
structural.  Dispatch mismatches (e.g. `generate_expr` applied to a
non-`Expr`) are the source's `AttributeError`/`NotImplementedError`
crashes. -/
def genAny : Nat → GKind → SymT → JNode → Except GenErr (List String)
  | 0, _, _, _ => .error .fuelE
  | Nat.succ fuel, .exprK, sy, node =>
    match node with
    | .eNode terms ops =>
      match terms with
      | [] => .error (.crashE "IndexError")
      | t0 :: restTerms => do
        let out0 ← genAny fuel .termK sy t0
        (restTerms.zip ops).foldlM
          (fun acc p => do
            let o ← genAny fuel .termK sy p.1
            pure (acc ++ o ++ [binOpCmd p.2]))
          out0
    | _ => .error (.crashE "AttributeError")
  | Nat.succ fuel, .termK, sy, node =>
    match node with
    | .tNode unary _ inner => do
      let o ← genAny fuel .texprK sy inner
      match unary with
      | some u =>
        if u = "-" then pure (o ++ ["neg"])
        else if u = "~" then pure (o ++ ["not"])
        else pure o
      | none => pure o
    | _ => .error (.crashE "AttributeError")
  | Nat.succ fuel, .texprK, sy, node =>
    match node with
    | .eNode terms ops => genAny fuel .exprK sy (.eNode terms ops)
    | .constN ty val => .ok (genConst ty val)
    | .varN n => do
      let s ← varCode sy n
      pure ["push " ++ s.code]
    | .callN names params => genCallE sy names params
    | .subN n idx => do
      let s ← arrCode sy n
      let oi ← genAny fuel .exprK sy idx
      pure (["push " ++ s.code] ++ oi ++ ["add", "pop pointer 1", "push that 0"])
    | .tNode _ _ _ => .error (.crashE "NotImplementedError")

/-- The statement emitters (`generate_stmt` and the statement loops),
fuelled like `genAny`; the symbol-table state threads the `label_id`
counter. -/
def genStmtA : Nat → SymT → List JStmt → Except GenErr (List String × SymT)
  | 0, _, _ => .error .fuelE
  | Nat.succ _, sy, [] => .ok ([], sy)
  | Nat.succ fuel, sy, stmt :: rest => do
    let r ← (match stmt with
      | .letV n rhs _ => do
        let sym ← varCode sy n
        let o ← genAny fuel .exprK sy rhs
        pure (o ++ ["pop " ++ sym.code], sy)
      | .letSub n idx rhs _ => do
        let sym ← arrCode sy n
        let o ← genAny fuel .exprK sy rhs
        let oi ← genAny fuel .exprK sy idx
        pure (o ++ ["push " ++ sym.code] ++ oi ++
              ["add", "pop pointer 1", "pop that 0"], sy)
      | .doS call _ => do
        let o ← genAny fuel .texprK sy call
        pure (o ++ ["pop temp 0"], sy)
      | .whileS cond body _ => do
        let rl ← symLabel sy (some "while")
        let lbl := rl.1
        let sy1 := rl.2
        let oc ← genAny fuel .exprK sy1 cond
        let rb ← genStmtA fuel sy1 body
        pure (["label " ++ lbl ++ "_check"] ++ oc ++
              ["if-goto " ++ lbl ++ "_do", "goto " ++ lbl ++ "_done"] ++ rb.1 ++
              ["goto " ++ lbl ++ "_check", "label " ++ lbl ++ "_done"], rb.2)
      | .ifS cond thenS elseS _ => do
        let rl ← symLabel sy (some "if")
        let lbl := rl.1
        let sy1 := rl.2
        let oc ← genAny fuel .exprK sy1 cond
        let re ← (match elseS with
          | some es => genStmtA fuel sy1 es
          | none => pure ([], sy1))
        let rt ← genStmtA fuel re.2 thenS
        pure (oc ++ ["if-goto " ++ lbl ++ "_true"] ++ re.1 ++
              ["goto " ++ lbl ++ "_done", "label " ++ lbl ++ "_true"] ++ rt.1 ++
              ["label " ++ lbl ++ "_done"], rt.2)
      | .retS e lno => do
        match sy.func_decl with
        | none => .error (.crashE "AttributeError")
        | some d =>
          match d.names with
          | [] => .error (.crashE "IndexError")
          | n0 :: _ =>
            let void := d.ty = .builtinT "void"
            match e with
            | none =>
              if !void then
                .error (.parseE ("line " ++ natStr lno ++ ": " ++ n0.value ++
                                 " is not void"))
              else pure (["push constant 0", "return"], sy)
            | some ex =>
              if void then
                .error (.parseE ("line " ++ natStr lno ++ ": " ++ n0.value ++
                                 " is void"))
              else do
                let o ← genAny fuel .exprK sy ex
                pure (o ++ ["return"], sy))
    let rr ← genStmtA fuel r.2 rest
    .ok (r.1 ++ rr.1, rr.2)

/-- Recursion fuel for the concrete programs below. -/
def genFuel : Nat := 200

/-- `Generator.generate_sub`.  Note the constructor prologue's middle line:
the source calls `self.write("push constant {self.syms.field_count()}")`
*without* the `f` prefix, so the braces are emitted literally. -/
def genSub (sy : SymT) (s : SubT) : Except GenErr (List String × SymT) := do
  let sy1 ← addSub sy s
  match s.stmts.getLast? with
  | none => .error (.crashE "IndexError")
  | some lastS =>
    let isRet := match lastS with | .retS _ _ => true | _ => false
    if !isRet then
      match s.decl.names with
      | [] => .error (.crashE "IndexError")
      | n0 :: _ => .error (parseMsg n0 "must end with return")
    else do
      let rl ← symLabel sy1 none
      let header := ["function " ++ rl.1 ++ " " ++ natStr s.locs.length]
      let prologue ← (match s.mtype with
        | .methodM => pure ["push argument 0", "pop pointer 0"]
        | .ctorM =>
          match s.decl.ty with
          | .classT cname =>
            if rl.2.class_name ≠ some cname.value then
              .error (parseMsg cname " is invalid ctor return type")
            else
              pure ["push constant \x7bself.syms.field_count()\x7d",
                    "call Memory.alloc 1", "pop pointer 0"]
          | .builtinT _ => .error (.crashE "AttributeError")
        | .funcM => pure ([] : List String))
      let rb ← genStmtA genFuel rl.2 s.stmts
      .ok (header ++ prologue ++ rb.1, rb.2)

/-- The subroutine loop of `Generator.generate_class`. -/
def genSubsF : SymT → List SubT → Except GenErr (List String × SymT)
  | sy, [] => .ok ([], sy)
  | sy, s :: rest => do
    let r ← genSub sy s
    let rr ← genSubsF r.2 rest
    .ok (r.1 ++ rr.1, rr.2)

/-- `Generator.generate_class`. -/
def genClass (sy : SymT) (c : ClassT) : Except GenErr (List String × SymT) := do
  let sy1 ← addClass sy c
  genSubsF sy1 c.subs

/-- The first pass of `Generator.generate`, with the `module <m>:` error
decoration `generate`'s `except ParseError` clause adds. -/
def addSubsAll : SymT → List ClassT → Except GenErr SymT
  | sy, [] => .ok sy
  | sy, c :: rest =>
    match addSubs sy c with
    | .error (.parseE m) => .error (.parseE ("module " ++ c.module ++ ": " ++ m))
    | .error e => .error e
    | .ok sy' => addSubsAll sy' rest

/-- The second pass of `Generator.generate`. -/
def genClassesAll : SymT → List ClassT → Except GenErr (List String)
  | _, [] => .ok []
  | sy, c :: rest =>
    match genClass sy c with
    | .error (.parseE m) => .error (.parseE ("module " ++ c.module ++ ": " ++ m))
    | .error e => .error e
    | .ok r => (genClassesAll r.2 rest).map (fun l => r.1 ++ l)

/-- `Generator.generate` over a parsed `Program`. -/
def generate (classes : List ClassT) : Except GenErr (List String) := do
  let sy ← addSubsAll symInit classes
  genClassesAll sy classes

/-- Shorthand for building a `Name`. -/
def nm (v : String) (l : Nat) : NameT := ⟨v, l⟩

/-- An expression consisting of a single variable reference. -/
def exprVar (v : String) (l : Nat) : JNode :=
  .eNode [.tNode none false (.varN (nm v l))] []

/-- Claim C1, scenario A: `class C { method void m(int x) {
do Output.printInt(x); return; } }`. -/
def classC1A : ClassT :=
  ⟨"Main", nm "C" 1, [],
   [⟨.methodM, ⟨.builtinT "void", [nm "m" 2]⟩, [⟨.builtinT "int", [nm "x" 2]⟩], [],
     [.doS (.callN [nm "Output" 3, nm "printInt" 3] [exprVar "x" 3]) 3,
      .retS none 4]⟩]⟩

/-- Claim C1, scenario B: `class C { method void foo(int a) { return; }
method void m(int x) { do foo(x); return; } }`. -/
def classC1B : ClassT :=
  ⟨"Main", nm "C" 1, [],
   [⟨.methodM, ⟨.builtinT "void", [nm "foo" 2]⟩, [⟨.builtinT "int", [nm "a" 2]⟩], [],
     [.retS none 3]⟩,
    ⟨.methodM, ⟨.builtinT "void", [nm "m" 5]⟩, [⟨.builtinT "int", [nm "x" 5]⟩], [],
     [.doS (.callN [nm "foo" 6] [exprVar "x" 6]) 6,
      .retS none 7]⟩]⟩

/-- Claim C2: `class Point { field int px, py;
constructor Point new(int x, int y) { let px = x; let py = y;
return this; } }`. -/
def classPoint : ClassT :=
  ⟨"Point", nm "Point" 1,
   [⟨.fieldS, ⟨.builtinT "int", [nm "px" 2, nm "py" 2]⟩⟩],
   [⟨.ctorM, ⟨.classT (nm "Point" 3), [nm "new" 3]⟩,
     [⟨.builtinT "int", [nm "x" 3]⟩, ⟨.builtinT "int", [nm "y" 3]⟩], [],
     [.letV (nm "px" 4) (exprVar "x" 4) 4,
      .letV (nm "py" 5) (exprVar "y" 5) 5,
      .retS (some (.eNode [.tNode none false (.constN "ref" "this")] [])) 6]⟩]⟩

/-- Claim C3: `class C { function void f() { while (true) { } return; } }`. -/
def classWhile : ClassT :=
  ⟨"Main", nm "C" 1, [],
   [⟨.funcM, ⟨.builtinT "void", [nm "f" 2]⟩, [], [],
     [.whileS (.eNode [.tNode none false (.constN "bool" "true")] []) [] 3,
      .retS none 4]⟩]⟩

/-- Claim C8: a user class named `Math` that implements none of the OS
`Math` signatures. -/
def classMathEmpty : ClassT := ⟨"Math", nm "Math" 1, [], []⟩

/-! ## Theorems -/

/-- Looking up a key right after `dictInsert`ing it yields the new value. -/
theorem alookup_dictInsert_self {α : Type} (d : List (String × α)) (k : String) (v : α) :
    alookup (dictInsert d k v) k = some v := by
  induction d with
  | nil => simp [dictInsert, alookup]
  | cons hd t ih =>
    obtain ⟨k', v'⟩ := hd
    by_cases hk : k' = k
    · simp [dictInsert, hk, alookup]
    · simp [dictInsert, hk, alookup, ih]

/-- `dictInsert` with a different key does not disturb a lookup. -/
theorem alookup_dictInsert_ne {α : Type} (d : List (String × α)) (k k' : String) (v : α)
    (h : k' ≠ k) : alookup (dictInsert d k' v) k = alookup d k := by
  induction d with
  | nil => simp [dictInsert, alookup, h]
  | cons hd t ih =>
    obtain ⟨k'', v''⟩ := hd
    by_cases hk : k'' = k'
    · subst hk
      simp [dictInsert, alookup, h]
    · simp [dictInsert, hk, alookup, ih]

/-- Pass 1 keeps exactly the real (non-label) instructions, in order. -/
theorem asmPass1_snd (insts : List AsmInst) :
    ∀ n syms, (asmPass1 insts n syms).2 = insts.filter (fun i => !isLbl i) := by
  induction insts with
  | nil => intro n syms; simp [asmPass1]
  | cons i rest ih =>
    intro n syms
    cases i with
    | err m => simp [asmPass1, isLbl, List.filter, ih]
    | lInst l => simp [asmPass1, isLbl, List.filter, ih]
    | aInst s => simp [asmPass1, isLbl, List.filter, ih]
    | cInst d c j => simp [asmPass1, isLbl, List.filter, ih]

/-- Pass 1 does not disturb the binding of a symbol the instruction list
never defines as a label. -/
theorem asmPass1_preserve (insts : List AsmInst) :
    ∀ n syms (l : String), l ∉ lblNames insts →
      alookup (asmPass1 insts n syms).1 l = alookup syms l := by
  induction insts with
  | nil => intro n syms l _; simp [asmPass1]
  | cons i rest ih =>
    intro n syms l hl
    cases i with
    | err m => exact ih _ _ _ (by simpa [lblNames] using hl)
    | lInst k =>
      have hk : k ≠ l := by
        intro hkl
        exact hl (by simp [lblNames, hkl])
      have hrest : l ∉ lblNames rest := by
        intro hmem
        exact hl (by simp [lblNames]; right; simpa [lblNames] using hmem)
      simp only [asmPass1]
      rw [ih _ _ _ hrest, alookup_dictInsert_ne _ _ _ _ hk]
    | aInst s => exact ih _ _ _ (by simpa [lblNames] using hl)
    | cInst d c j => exact ih _ _ _ (by simpa [lblNames] using hl)

/-- Claim C6.  Assembler symbol resolution: (1) on the concrete input
`@i / M=1 / (LOOP) / @i / D=M / @LOOP / D;JGT`, six words are output,
`i` binds to 16 (the first free data address) and `LOOP` binds to 2;
(2) label pseudo-instructions occupy no address — pass 1 keeps exactly the
real instructions; (3) a `(SYM)` definition binds `SYM` to the index of
the next real instruction (counting real instructions from the running
base address). -/
theorem c6_assembler_symbols :
    (∃ out sy, assembleAll inputC6 initialSymbols = .ok (out, sy) ∧
       out.length = 6 ∧ alookup sy "i" = some 16 ∧ alookup sy "LOOP" = some 2) ∧
    (∀ insts n syms, (asmPass1 insts n syms).2 = insts.filter (fun i => !isLbl i)) ∧
    (∀ pre l rest n syms, l ∉ lblNames rest →
       alookup (asmPass1 (pre ++ .lInst l :: rest) n syms).1 l
         = some (n + realCount pre)) := by
  refine ⟨⟨_, _, rfl, by decide, by decide, by decide⟩,
          fun insts n syms => asmPass1_snd insts n syms, ?_⟩
  intro pre
  induction pre with
  | nil =>
    intro l rest n syms hl
    simp only [List.nil_append, asmPass1]
    rw [asmPass1_preserve _ _ _ _ hl, alookup_dictInsert_self]
    simp [realCount]
  | cons a pre' ih =>
    intro l rest n syms hl
    cases a with
    | err m =>
      simp only [List.cons_append, asmPass1, List.append_eq]
      rw [ih _ _ _ _ hl]
      congr 1
      simp [realCount, isLbl, List.filter]
      omega
    | lInst k =>
      simp only [List.cons_append, asmPass1, List.append_eq]
      rw [ih _ _ _ _ hl]
      congr 1
    | aInst s =>
      simp only [List.cons_append, asmPass1, List.append_eq]
      rw [ih _ _ _ _ hl]
      congr 1
      simp [realCount, isLbl, List.filter]
      omega
    | cInst d c j =>
      simp only [List.cons_append, asmPass1, List.append_eq]
      rw [ih _ _ _ _ hl]
      congr 1
      simp [realCount, isLbl, List.filter]
      omega

/-- Witness for the hypothesis-bearing part of `c6_assembler_symbols`:
a label after one real instruction binds to address 1. -/
theorem c6_assembler_symbols_witness :
    alookup (asmPass1 ([.cInst "010" "0110000" "000"] ++ .lInst "L" :: []) 0 []).1 "L"
      = some (0 + realCount [.cInst "010" "0110000" "000"]) :=
  c6_assembler_symbols.2.2 [.cInst "010" "0110000" "000"] "L" [] 0 [] (by decide)

/-- Claim C7.  Assembler instruction encoding: on the concrete input
`@2 / D=A / @3 / D=D+A / @0 / M=D` the emitted words are exactly the six
listed lines (C-instructions are `111` + 7-bit comp + 3-bit `(A,D,M)`
dest mask + 3-bit jump, numeric A-instructions are `0` + 15-bit binary:
every value below `2^15` renders with a leading `0` bitization). -/
theorem c7_assembler_encoding :
    (∃ sy, assembleAll inputC7 initialSymbols =
       .ok (["0000000000000010", "1110110000010000", "0000000000000011",
             "1110000010010000", "0000000000000000", "1110001100001000"], sy)) ∧
    (∀ n, n < 32768 → toBin16 n = String.mk ('0' :: toBinBits 15 n)) := by
  refine ⟨⟨_, rfl⟩, ?_⟩
  intro n h
  show String.mk (toBinBits (15 + 1) n) = String.mk ('0' :: toBinBits 15 n)
  have h0 : n / 32768 = 0 := Nat.div_eq_of_lt h
  simp [toBinBits, h0]

/-- Witness for `c7_assembler_encoding`: `@2` encodes with a leading zero
bit. -/
theorem c7_assembler_encoding_witness :
    toBin16 2 = String.mk ('0' :: toBinBits 15 2) :=
  c7_assembler_encoding.2 2 (by decide)

/-- Claim C1 (evaluation at the failing inputs).  The generator does *not*
push a call's argument expressions: `do Output.printInt(x);` in a method
compiles without any `push` of `x`, and the unqualified `do foo(x);` in a
method of class `C` compiles to `push argument 0; call C.foo 2`
(receiver taken from `argument 0`, not `pointer 0`, and again no push of
`x`), contradicting the claimed
`push pointer 0; push <x>; call C.foo 2; pop temp 0`. -/
theorem c1_call_lowering_eval :
    generate [classC1A] =
      .ok ["function C.m 0", "push argument 0", "pop pointer 0",
           "call Output.printInt 1", "pop temp 0", "push constant 0", "return"] ∧
    generate [classC1B] =
      .ok ["function C.foo 0", "push argument 0", "pop pointer 0",
           "push constant 0", "return",
           "function C.m 0", "push argument 0", "pop pointer 0",
           "push argument 0", "call C.foo 2", "pop temp 0",
           "push constant 0", "return"] := ⟨rfl, rfl⟩

/-- Claim C2 (evaluation at the failing input).  The constructor prologue's
alloc-size line is emitted from a string that was meant to be an f-string
but lacks the `f` prefix, so the class with two fields emits the literal
text `push constant {self.syms.field_count()}` instead of
`push constant 2`. -/
theorem c2_ctor_lowering_eval :
    generate [classPoint] =
      .ok ["function Point.new 0",
           "push constant \x7bself.syms.field_count()\x7d",
           "call Memory.alloc 1", "pop pointer 0",
           "push argument 0", "pop this 0",
           "push argument 1", "pop this 1",
           "push pointer 0", "return"] := rfl

/-- Claim C3 (evaluation at the failing input).  The `while` lowering emits
`if-goto <lbl>_do` but never emits `label <lbl>_do`, so the emitted
`if-goto` targets a label that does not exist in the output (and the
claimed shape `not; if-goto L_done` is not produced either). -/
theorem c3_while_lowering_eval :
    generate [classWhile] =
      .ok ["function C.f 0", "label C.f.while_1_check", "push const 1",
           "if-goto C.f.while_1_do", "goto C.f.while_1_done",
           "goto C.f.while_1_check", "label C.f.while_1_done",
           "push constant 0", "return"] ∧
    "if-goto C.f.while_1_do" ∈
      ["function C.f 0", "label C.f.while_1_check", "push const 1",
       "if-goto C.f.while_1_do", "goto C.f.while_1_done",
       "goto C.f.while_1_check", "label C.f.while_1_done",
       "push constant 0", "return"] ∧
    "label C.f.while_1_do" ∉
      ["function C.f 0", "label C.f.while_1_check", "push const 1",
       "if-goto C.f.while_1_do", "goto C.f.while_1_done",
       "goto C.f.while_1_check", "label C.f.while_1_done",
       "push constant 0", "return"] := ⟨rfl, by decide, by decide⟩

/-- Claim C4 (evaluation at the failing inputs).  Constant lowering spells
the segment `const` (not `constant`) for integers, `true`, `false` and
`null`, and `true` is lowered to `push const 1` with no `neg`/`not`, so it
does not yield the all-ones word; only `this ↦ push pointer 0` matches the
claim. -/
theorem c4_const_lowering_eval :
    genAny 5 .texprK symInit (.constN "int" "5") = .ok ["push const 5"] ∧
    genAny 5 .texprK symInit (.constN "bool" "true") = .ok ["push const 1"] ∧
    genAny 5 .texprK symInit (.constN "bool" "false") = .ok ["push const 0"] ∧
    genAny 5 .texprK symInit (.constN "ref" "null") = .ok ["push const 0"] ∧
    genAny 5 .texprK symInit (.constN "ref" "this") = .ok ["push pointer 0"] :=
  ⟨rfl, rfl, rfl, rfl, rfl⟩

/-- Claim C8 (evaluation at the failing input).  A user class named `Math`
with no subroutines passes semantic analysis: `add_subs` consults the OS
table with the `Name` tuple as key — `dget osTable (.nameK v l)` is `none`
for every name — so the conformance check (which would reject this class:
`conforms` is `false` against the OS `Math` signature) never runs. -/
theorem c8_os_conformance_eval :
    generate [classMathEmpty] = .ok [] ∧
    (dget osTable (.strK "Math")).map (SubSymT.conforms ⟨[], []⟩) = some false ∧
    (∀ v l, dget osTable (.nameK v l) = none) := by
  refine ⟨rfl, rfl, ?_⟩
  intro v l
  simp [dget, osTable]

/-- Claim C9 (evaluation at the failing inputs).  A `push` with the unknown
segment `foo` crashes the parser with an uncaught `UnboundLocalError`
(the source's `match` spells its would-be wildcard as the literal pattern
`case "_":`, and even that case reads the unbound `seg`), while negative
indices, non-numeric indices, `pop constant` and wrong arity do produce
`Error` values carrying `<module>.vm` and the 1-based line number. -/
theorem c9_vm_parser_operands_eval :
    vmParse "Foo" ["push foo 0"] = .error "UnboundLocalError" ∧
    vmParse "Foo" ["push local -1"] =
      .ok [.errI "Foo.vm line 1: index must be a non-negative integer"] ∧
    vmParse "Foo" ["push local x"] =
      .ok [.errI "Foo.vm line 1: index must be a non-negative integer"] ∧
    vmParse "Foo" ["pop constant 0"] =
      .ok [.errI "Foo.vm line 1: you cannot pop to a constant"] ∧
    vmParse "Foo" ["push local"] =
      .ok [.errI "Foo.vm line 1: push takes 2 arguments"] ∧
    vmParse "Foo" ["", "push this 1"] =
      .ok [.cmdI (.pushC (.floating "THIS") "1")] :=
  ⟨rfl, rfl, rfl, rfl, rfl, rfl⟩

/-- A command that is not `function f k` leaves `funcname` unchanged. -/
theorem transStep_funcname_eq (st : TState) (c : VCmd) (h : isFunDef c = false) :
    (transStep st c).2.funcname = st.funcname := by
  cases c with
  | pushC seg idx => rfl
  | popC seg idx => rfl
  | unaryC op => rfl
  | binaryC op => rfl
  | compC op => rfl
  | branchC op s =>
    simp only [transStep]
    split_ifs <;> rfl
  | funcC op name n =>
    simp only [isFunDef, decide_eq_false_iff_not] at h
    simp only [transStep, if_neg h]
    split_ifs <;> rfl
  | retC => rfl

/-- `funcname` stays at its initial value over a `function`-free prefix. -/
theorem vmTransList_funcname (l : List VCmd) :
    ∀ st, (∀ x ∈ l, isFunDef x = false) →
      (vmTransList st l).2.funcname = st.funcname := by
  induction l with
  | nil => intro st _; rfl
  | cons c rest ih =>
    intro st h
    calc (vmTransList st (c :: rest)).2.funcname
        = (vmTransList (transStep st c).2 rest).2.funcname := rfl
      _ = (transStep st c).2.funcname :=
          ih _ (fun x hx => h x (List.mem_cons_of_mem _ hx))
      _ = st.funcname := transStep_funcname_eq st c (h c (List.mem_cons_self _ _))

/-- Claim C10.  In a module whose commands so far contain no `function`
command, the enclosing-function name is still the sentinel `None`, and
every `label`/`goto`/`if-goto`/`call` translated in that state emits its
function-scoped assembly label with the literal prefix `None$` (for
`call`, the return label `None$ret.<k>`). -/
theorem c10_none_sentinel (module s f : String) (n : Nat) (pre : List VCmd)
    (hpre : ∀ x ∈ pre, isFunDef x = false) :
    (vmTransList (vmInitState module) pre).2.funcname = none ∧
    (transStep (vmTransList (vmInitState module) pre).2 (.branchC "label" s)).1
      = [labelText ("None$" ++ s)] ∧
    (transStep (vmTransList (vmInitState module) pre).2 (.branchC "goto" s)).1
      = [gotoText ("None$" ++ s)] ∧
    (transStep (vmTransList (vmInitState module) pre).2 (.branchC "if-goto" s)).1
      = [ifGotoText ("None$" ++ s)] ∧
    (transStep (vmTransList (vmInitState module) pre).2 (.funcC "call" f n)).1
      = [callFullText f n ("None$" ++ ("ret." ++
          natStr ((vmTransList (vmInitState module) pre).2.next_ret + 1)))] := by
  have hf : (vmTransList (vmInitState module) pre).2.funcname = none :=
    vmTransList_funcname pre (vmInitState module) hpre
  have hmk : ∀ t, makeLabel (vmTransList (vmInitState module) pre).2 t
      = "None$" ++ t := by
    intro t
    unfold makeLabel
    rw [hf]
    exact congrArg (fun x => x ++ t) rfl
  refine ⟨hf, ?_, ?_, ?_, ?_⟩
  · show [labelText (makeLabel (vmTransList (vmInitState module) pre).2 s)] = _
    rw [hmk]
  · show [gotoText (makeLabel (vmTransList (vmInitState module) pre).2 s)] = _
    rw [hmk]
  · show [ifGotoText (makeLabel (vmTransList (vmInitState module) pre).2 s)] = _
    rw [hmk]
  · show [callFullText f n (makeLabel (vmTransList (vmInitState module) pre).2
      ("ret." ++ natStr ((vmTransList (vmInitState module) pre).2.next_ret + 1)))] = _
    rw [hmk]

/-- Witness for `c10_none_sentinel`: at the very start of a module, a
`label top` and a `call F 0` are emitted with the `None$` prefix. -/
theorem c10_none_sentinel_witness :
    (vmTransList (vmInitState "Main") []).2.funcname = none ∧
    (transStep (vmTransList (vmInitState "Main") []).2 (.branchC "label" "top")).1
      = [labelText ("None$" ++ "top")] ∧
    (transStep (vmTransList (vmInitState "Main") []).2 (.branchC "goto" "top")).1
      = [gotoText ("None$" ++ "top")] ∧
    (transStep (vmTransList (vmInitState "Main") []).2 (.branchC "if-goto" "top")).1
      = [ifGotoText ("None$" ++ "top")] ∧
    (transStep (vmTransList (vmInitState "Main") []).2 (.funcC "call" "F" 0)).1
      = [callFullText "F" 0 ("None$" ++ ("ret." ++
          natStr ((vmTransList (vmInitState "Main") []).2.next_ret + 1)))] :=
  c10_none_sentinel "Main" "top" "F" 0 [] (by simp)

/-- Reading an updated cell yields the new value. -/
theorem upd_at (r : Nat → Nat) (a v : Nat) : upd r a v a = v := by
  simp [upd]

/-- Reading any other cell is unchanged. -/
theorem upd_ne (r : Nat → Nat) (a v i : Nat) (h : i ≠ a) : upd r a v i = r i := by
  simp [upd, h]

/-- Wrapping addition below the word size is plain addition. -/
theorem addw_lt (x y : Nat) (h : x + y < wsize) : addw x y = x + y :=
  Nat.mod_eq_of_lt h

/-- Wrapping subtraction with no underflow is plain truncated subtraction. -/
theorem subw_le (x y : Nat) (hy : y ≤ x) (hx : x < wsize) : subw x y = x - y := by
  unfold subw
  rw [Nat.mod_eq_of_lt (lt_of_le_of_lt hy hx)]
  have hyw : y ≤ wsize := le_of_lt (lt_of_le_of_lt hy hx)
  have h1 : x + (wsize - y) = wsize + (x - y) := by omega
  rw [h1, Nat.add_mod_left, Nat.mod_eq_of_lt (by omega)]

/-- Straight-line execution splits over concatenation. -/
theorem run_append (s : HS) (l1 l2 : List HInst) :
    run s (l1 ++ l2) = run (run s l1) l2 := by
  simp [run, List.foldl_append]

/-- Effect of the push-D block: with `RAM[SP] = sp` (no wrap), it bumps SP
and stores `D` at the old top, leaving `A = sp`. -/
theorem runPushD (s : HS) (sp v : Nat) (r : Nat → Nat) (hram : s.ram = r)
    (hd : s.d = v) (h0 : r 0 = sp) (h2 : sp + 1 < wsize) :
    run s pushDAsm = ⟨sp, v, upd (upd r 0 (sp + 1)) sp v⟩ := by
  subst hram
  subst hd
  show step (step (step (step s (.ai 0)) (.ci .dM .cMplus1)) (.ci .dA .cMminus1))
      (.ci .dM .cD) = _
  simp only [step, evalComp]
  rw [h0, addw_lt sp 1 h2, upd_at, subw_le (sp + 1) 1 (by omega) h2,
      Nat.add_sub_cancel]

/-- Claim C5, amended.  Executing the emitted `call f n` sequence from any
state with `5 ≤ SP`, `SP + 5 < 2^16`, `n ≤ SP` and an in-range return
address: the return address and the saved `LCL, ARG, THIS, THAT` are
pushed in that order at the five cells starting at the old `SP`;
afterwards `RAM[ARG] = old SP - n` (equivalently the new `SP - n - 5`,
*not* the old `SP - n - 5`), and `RAM[LCL] = RAM[SP] = new SP =
old SP + 5`. -/
theorem c5_call_frame (s : HS) (ret n target : Nat)
    (h5 : 5 ≤ s.ram 0) (hw : s.ram 0 + 5 < wsize) (hn : n ≤ s.ram 0) :
    (run s (callAsmInsts ret n target)).ram 2 = s.ram 0 - n ∧
    (run s (callAsmInsts ret n target)).ram 1 = s.ram 0 + 5 ∧
    (run s (callAsmInsts ret n target)).ram 0 = s.ram 0 + 5 ∧
    (run s (callAsmInsts ret n target)).ram (s.ram 0) = ret ∧
    (run s (callAsmInsts ret n target)).ram (s.ram 0 + 1) = s.ram 1 ∧
    (run s (callAsmInsts ret n target)).ram (s.ram 0 + 2) = s.ram 2 ∧
    (run s (callAsmInsts ret n target)).ram (s.ram 0 + 3) = s.ram 3 ∧
    (run s (callAsmInsts ret n target)).ram (s.ram 0 + 4) = s.ram 4 := by
  simp only [callAsmInsts, run_append]
  rw [show run s [.ai ret, .ci .dD .cA] = (⟨ret, ret, s.ram⟩ : HS) from rfl]
  rw [runPushD ⟨ret, ret, s.ram⟩ (s.ram 0) ret s.ram rfl rfl rfl (by omega)]
  rw [show run (⟨s.ram 0, ret, upd (upd s.ram 0 (s.ram 0 + 1)) (s.ram 0) ret⟩ : HS) [.ai 1, .ci .dD .cM]
        = (⟨1, (upd (upd s.ram 0 (s.ram 0 + 1)) (s.ram 0) ret) 1, upd (upd s.ram 0 (s.ram 0 + 1)) (s.ram 0) ret⟩ : HS) from rfl]
  rw [show (upd (upd s.ram 0 (s.ram 0 + 1)) (s.ram 0) ret) 1 = s.ram 1 from by
        simp only [upd]; split_ifs <;> first | contradiction | omega]
  rw [runPushD ⟨1, s.ram 1, upd (upd s.ram 0 (s.ram 0 + 1)) (s.ram 0) ret⟩ (s.ram 0 + 1) (s.ram 1) (upd (upd s.ram 0 (s.ram 0 + 1)) (s.ram 0) ret) rfl rfl
        (by simp only [upd]; split_ifs <;> first | contradiction | omega) (by omega)]
  rw [show run (⟨s.ram 0 + 1, s.ram 1, upd (upd (upd (upd s.ram 0 (s.ram 0 + 1)) (s.ram 0) ret) 0 (s.ram 0 + 1 + 1)) (s.ram 0 + 1) (s.ram 1)⟩ : HS) [.ai 2, .ci .dD .cM]
        = (⟨2, (upd (upd (upd (upd s.ram 0 (s.ram 0 + 1)) (s.ram 0) ret) 0 (s.ram 0 + 1 + 1)) (s.ram 0 + 1) (s.ram 1)) 2, upd (upd (upd (upd s.ram 0 (s.ram 0 + 1)) (s.ram 0) ret) 0 (s.ram 0 + 1 + 1)) (s.ram 0 + 1) (s.ram 1)⟩ : HS) from rfl]
  rw [show (upd (upd (upd (upd s.ram 0 (s.ram 0 + 1)) (s.ram 0) ret) 0 (s.ram 0 + 1 + 1)) (s.ram 0 + 1) (s.ram 1)) 2 = s.ram 2 from by
        simp only [upd]; split_ifs <;> first | contradiction | omega]
  rw [runPushD ⟨2, s.ram 2, upd (upd (upd (upd s.ram 0 (s.ram 0 + 1)) (s.ram 0) ret) 0 (s.ram 0 + 1 + 1)) (s.ram 0 + 1) (s.ram 1)⟩ (s.ram 0 + 1 + 1) (s.ram 2) (upd (upd (upd (upd s.ram 0 (s.ram 0 + 1)) (s.ram 0) ret) 0 (s.ram 0 + 1 + 1)) (s.ram 0 + 1) (s.ram 1)) rfl rfl
        (by simp only [upd]; split_ifs <;> first | contradiction | omega) (by omega)]
  rw [show run (⟨s.ram 0 + 1 + 1, s.ram 2, upd (upd (upd (upd (upd (upd s.ram 0 (s.ram 0 + 1)) (s.ram 0) ret) 0 (s.ram 0 + 1 + 1)) (s.ram 0 + 1) (s.ram 1)) 0 (s.ram 0 + 1 + 1 + 1)) (s.ram 0 + 1 + 1) (s.ram 2)⟩ : HS) [.ai 3, .ci .dD .cM]
        = (⟨3, (upd (upd (upd (upd (upd (upd s.ram 0 (s.ram 0 + 1)) (s.ram 0) ret) 0 (s.ram 0 + 1 + 1)) (s.ram 0 + 1) (s.ram 1)) 0 (s.ram 0 + 1 + 1 + 1)) (s.ram 0 + 1 + 1) (s.ram 2)) 3, upd (upd (upd (upd (upd (upd s.ram 0 (s.ram 0 + 1)) (s.ram 0) ret) 0 (s.ram 0 + 1 + 1)) (s.ram 0 + 1) (s.ram 1)) 0 (s.ram 0 + 1 + 1 + 1)) (s.ram 0 + 1 + 1) (s.ram 2)⟩ : HS) from rfl]
  rw [show (upd (upd (upd (upd (upd (upd s.ram 0 (s.ram 0 + 1)) (s.ram 0) ret) 0 (s.ram 0 + 1 + 1)) (s.ram 0 + 1) (s.ram 1)) 0 (s.ram 0 + 1 + 1 + 1)) (s.ram 0 + 1 + 1) (s.ram 2)) 3 = s.ram 3 from by
        simp only [upd]; split_ifs <;> first | contradiction | omega]
  rw [runPushD ⟨3, s.ram 3, upd (upd (upd (upd (upd (upd s.ram 0 (s.ram 0 + 1)) (s.ram 0) ret) 0 (s.ram 0 + 1 + 1)) (s.ram 0 + 1) (s.ram 1)) 0 (s.ram 0 + 1 + 1 + 1)) (s.ram 0 + 1 + 1) (s.ram 2)⟩ (s.ram 0 + 1 + 1 + 1) (s.ram 3) (upd (upd (upd (upd (upd (upd s.ram 0 (s.ram 0 + 1)) (s.ram 0) ret) 0 (s.ram 0 + 1 + 1)) (s.ram 0 + 1) (s.ram 1)) 0 (s.ram 0 + 1 + 1 + 1)) (s.ram 0 + 1 + 1) (s.ram 2)) rfl rfl
        (by simp only [upd]; split_ifs <;> first | contradiction | omega) (by omega)]
  rw [show run (⟨s.ram 0 + 1 + 1 + 1, s.ram 3, upd (upd (upd (upd (upd (upd (upd (upd s.ram 0 (s.ram 0 + 1)) (s.ram 0) ret) 0 (s.ram 0 + 1 + 1)) (s.ram 0 + 1) (s.ram 1)) 0 (s.ram 0 + 1 + 1 + 1)) (s.ram 0 + 1 + 1) (s.ram 2)) 0 (s.ram 0 + 1 + 1 + 1 + 1)) (s.ram 0 + 1 + 1 + 1) (s.ram 3)⟩ : HS) [.ai 4, .ci .dD .cM]
        = (⟨4, (upd (upd (upd (upd (upd (upd (upd (upd s.ram 0 (s.ram 0 + 1)) (s.ram 0) ret) 0 (s.ram 0 + 1 + 1)) (s.ram 0 + 1) (s.ram 1)) 0 (s.ram 0 + 1 + 1 + 1)) (s.ram 0 + 1 + 1) (s.ram 2)) 0 (s.ram 0 + 1 + 1 + 1 + 1)) (s.ram 0 + 1 + 1 + 1) (s.ram 3)) 4, upd (upd (upd (upd (upd (upd (upd (upd s.ram 0 (s.ram 0 + 1)) (s.ram 0) ret) 0 (s.ram 0 + 1 + 1)) (s.ram 0 + 1) (s.ram 1)) 0 (s.ram 0 + 1 + 1 + 1)) (s.ram 0 + 1 + 1) (s.ram 2)) 0 (s.ram 0 + 1 + 1 + 1 + 1)) (s.ram 0 + 1 + 1 + 1) (s.ram 3)⟩ : HS) from rfl]
  rw [show (upd (upd (upd (upd (upd (upd (upd (upd s.ram 0 (s.ram 0 + 1)) (s.ram 0) ret) 0 (s.ram 0 + 1 + 1)) (s.ram 0 + 1) (s.ram 1)) 0 (s.ram 0 + 1 + 1 + 1)) (s.ram 0 + 1 + 1) (s.ram 2)) 0 (s.ram 0 + 1 + 1 + 1 + 1)) (s.ram 0 + 1 + 1 + 1) (s.ram 3)) 4 = s.ram 4 from by
        simp only [upd]; split_ifs <;> first | contradiction | omega]
  rw [runPushD ⟨4, s.ram 4, upd (upd (upd (upd (upd (upd (upd (upd s.ram 0 (s.ram 0 + 1)) (s.ram 0) ret) 0 (s.ram 0 + 1 + 1)) (s.ram 0 + 1) (s.ram 1)) 0 (s.ram 0 + 1 + 1 + 1)) (s.ram 0 + 1 + 1) (s.ram 2)) 0 (s.ram 0 + 1 + 1 + 1 + 1)) (s.ram 0 + 1 + 1 + 1) (s.ram 3)⟩ (s.ram 0 + 1 + 1 + 1 + 1) (s.ram 4) (upd (upd (upd (upd (upd (upd (upd (upd s.ram 0 (s.ram 0 + 1)) (s.ram 0) ret) 0 (s.ram 0 + 1 + 1)) (s.ram 0 + 1) (s.ram 1)) 0 (s.ram 0 + 1 + 1 + 1)) (s.ram 0 + 1 + 1) (s.ram 2)) 0 (s.ram 0 + 1 + 1 + 1 + 1)) (s.ram 0 + 1 + 1 + 1) (s.ram 3)) rfl rfl
        (by simp only [upd]; split_ifs <;> first | contradiction | omega) (by omega)]
  rw [show run (⟨s.ram 0 + 1 + 1 + 1 + 1, s.ram 4, upd (upd (upd (upd (upd (upd (upd (upd (upd (upd s.ram 0 (s.ram 0 + 1)) (s.ram 0) ret) 0 (s.ram 0 + 1 + 1)) (s.ram 0 + 1) (s.ram 1)) 0 (s.ram 0 + 1 + 1 + 1)) (s.ram 0 + 1 + 1) (s.ram 2)) 0 (s.ram 0 + 1 + 1 + 1 + 1)) (s.ram 0 + 1 + 1 + 1) (s.ram 3)) 0 (s.ram 0 + 1 + 1 + 1 + 1 + 1)) (s.ram 0 + 1 + 1 + 1 + 1) (s.ram 4)⟩ : HS)
        [.ci .dD .cA, .ai (4 + n), .ci .dD .cDminusA,
         .ai 2, .ci .dM .cD, .ai 0, .ci .dD .cM, .ai 1, .ci .dM .cD,
         .ai target, .jmp .cZero]
        = (⟨target,
            (upd (upd (upd (upd (upd (upd (upd (upd (upd (upd (upd s.ram 0 (s.ram 0 + 1)) (s.ram 0) ret) 0 (s.ram 0 + 1 + 1)) (s.ram 0 + 1) (s.ram 1)) 0 (s.ram 0 + 1 + 1 + 1)) (s.ram 0 + 1 + 1) (s.ram 2)) 0 (s.ram 0 + 1 + 1 + 1 + 1)) (s.ram 0 + 1 + 1 + 1) (s.ram 3)) 0 (s.ram 0 + 1 + 1 + 1 + 1 + 1)) (s.ram 0 + 1 + 1 + 1 + 1) (s.ram 4)) 2 (subw (s.ram 0 + 1 + 1 + 1 + 1) (4 + n))) 0,
            upd (upd (upd (upd (upd (upd (upd (upd (upd (upd (upd (upd s.ram 0 (s.ram 0 + 1)) (s.ram 0) ret) 0 (s.ram 0 + 1 + 1)) (s.ram 0 + 1) (s.ram 1)) 0 (s.ram 0 + 1 + 1 + 1)) (s.ram 0 + 1 + 1) (s.ram 2)) 0 (s.ram 0 + 1 + 1 + 1 + 1)) (s.ram 0 + 1 + 1 + 1) (s.ram 3)) 0 (s.ram 0 + 1 + 1 + 1 + 1 + 1)) (s.ram 0 + 1 + 1 + 1 + 1) (s.ram 4)) 2 (subw (s.ram 0 + 1 + 1 + 1 + 1) (4 + n))) 1
              ((upd (upd (upd (upd (upd (upd (upd (upd (upd (upd (upd s.ram 0 (s.ram 0 + 1)) (s.ram 0) ret) 0 (s.ram 0 + 1 + 1)) (s.ram 0 + 1) (s.ram 1)) 0 (s.ram 0 + 1 + 1 + 1)) (s.ram 0 + 1 + 1) (s.ram 2)) 0 (s.ram 0 + 1 + 1 + 1 + 1)) (s.ram 0 + 1 + 1 + 1) (s.ram 3)) 0 (s.ram 0 + 1 + 1 + 1 + 1 + 1)) (s.ram 0 + 1 + 1 + 1 + 1) (s.ram 4)) 2 (subw (s.ram 0 + 1 + 1 + 1 + 1) (4 + n))) 0)⟩ : HS) from rfl]
  rw [show subw (s.ram 0 + 1 + 1 + 1 + 1) (4 + n) = s.ram 0 - n from by
        rw [subw_le _ _ (by omega) (by omega)]; omega]
  refine ⟨?_, ?_, ?_, ?_, ?_, ?_, ?_, ?_⟩ <;>
    (dsimp only; simp only [upd]; split_ifs <;> first | contradiction | omega)

/-- Witness for `c5_call_frame`: the concrete state with `SP = 256`,
return address 7, `n = 0`. -/
theorem c5_call_frame_witness :
    (run hsC5 (callAsmInsts 7 0 9)).ram 2 = hsC5.ram 0 - 0 ∧
    (run hsC5 (callAsmInsts 7 0 9)).ram 1 = hsC5.ram 0 + 5 ∧
    (run hsC5 (callAsmInsts 7 0 9)).ram 0 = hsC5.ram 0 + 5 ∧
    (run hsC5 (callAsmInsts 7 0 9)).ram (hsC5.ram 0) = 7 ∧
    (run hsC5 (callAsmInsts 7 0 9)).ram (hsC5.ram 0 + 1) = hsC5.ram 1 ∧
    (run hsC5 (callAsmInsts 7 0 9)).ram (hsC5.ram 0 + 2) = hsC5.ram 2 ∧
    (run hsC5 (callAsmInsts 7 0 9)).ram (hsC5.ram 0 + 3) = hsC5.ram 3 ∧
    (run hsC5 (callAsmInsts 7 0 9)).ram (hsC5.ram 0 + 4) = hsC5.ram 4 :=
  c5_call_frame hsC5 7 0 9 (by decide) (by decide) (by decide)

/-- Counterexample to claim C5 as stated: from the state with old
`SP = 256` and `n = 0`, the emitted code leaves `RAM[ARG] = 256` (the old
`SP` minus `n`), not the claimed old `SP` minus `n` minus 5 (= 251). -/
theorem c5_claimed_arg_counterexample :
    (run hsC5 (callAsmInsts 7 0 9)).ram 2 = 256 ∧
    hsC5.ram 0 - 0 - 5 = 251 ∧
    (run hsC5 (callAsmInsts 7 0 9)).ram 2 ≠ hsC5.ram 0 - 0 - 5 :=
  ⟨by decide, by decide, by decide⟩
